import Mathlib

/-!
# Verification of the `midi.py` MIDI sequence library

A shallow embedding of the parsing and manipulation routines of
`src/midi.py` (classes `Tempo`, `TimeDivision`, `TimeSignature`, the event
hierarchy, `TimeAbsolute`, `Sequence`, `Chunk`, and the variable-length
integer codec), together with theorems settling the specification claims.

Modelling conventions:
* Python byte values are `Fin 256` (`Byte` below); byte strings are
  `List Byte`.
* Python exceptions are values of `PyErr`; fallible code returns
  `Except PyErr α`.  Python error messages are reproduced verbatim except
  that single-quote characters around interpolated values are dropped and
  hexadecimal formatting is rendered in decimal (noted at each site).
* Python `float` arithmetic on the quantities the claims touch (pitch-bend
  values, tempo in BPM, `1920 / denominator` bounds) is exact at every
  point the claims exercise, and is modelled by `ℚ`.
* Loops that consume an iterator are structural recursions on the
  remaining byte list; the per-track event loop uses a fuel counter
  (`chunk data length + 1`, an upper bound on the number of events since
  every event consumes at least one byte).  Exhausting the fuel yields the
  artificial error `PyErr.fuelExhausted`, which is unreachable on real
  executions; all theorems are either conditioned on an `.ok` result or
  evaluate concrete inputs, so the artifact cannot weaken any statement.
-/

namespace MidiPy

/-- A Python byte: an integer in `[0, 256)`. -/
abbrev Byte := Fin 256

/-- Python exceptions raised (or propagated) by `midi.py`.
`MIDIError` carries its message string; the others model built-in
exception types that escape the library uncaught. -/
inductive PyErr where
  | midiError (msg : String)
  | nameError (msg : String)
  | valueError (msg : String)
  | attributeError (msg : String)
  | keyError (key : Nat)
  | indexError
  | unicodeDecodeError
  | zeroDivisionError
  | stopIteration
  | fuelExhausted
  deriving DecidableEq, Repr

instance {ε α : Type} [DecidableEq ε] [DecidableEq α] : DecidableEq (Except ε α) := fun x y =>
  match x, y with
  | .error a, .error b =>
    if h : a = b then .isTrue (by rw [h]) else .isFalse (by simp [h])
  | .error _, .ok _ => .isFalse (by simp)
  | .ok _, .error _ => .isFalse (by simp)
  | .ok a, .ok b =>
    if h : a = b then .isTrue (by rw [h]) else .isFalse (by simp [h])

/-- Model of Python `int.from_bytes(data, big-endian)`. -/
def bytesToNat (l : List Byte) : Nat :=
  l.foldl (fun a b => a * 256 + b.val) 0

/-! ## Variable-length integer codec (`_var_int_parse`, `_var_int_bytes`)

Source, `src/midi.py` lines 1803–1830.  Bit operations on bytes are
rendered arithmetically: `byte & 0x7f` is `byte % 128`;
`(value << 7) | (byte & 0x7f)` is `value * 128 + byte % 128` (the low
seven bits are disjoint from the shifted part); the Python test
`~byte & 0x80` (bit 7 of `byte` is clear) is `byte / 128 % 2 = 0`. -/

/-- The `for i in range(4)` loop of `_var_int_parse`.  The fuel argument
counts the remaining loop iterations; when all four iterations finish
without a terminating byte the source raises
`MIDIError('Incomplete variable length integer.')`.  Reading past the end
of the stream raises `StopIteration` (uncaught in `_var_int_parse`). -/
def var_int_parse_aux : Nat → Nat → List Byte → Except PyErr (Nat × List Byte)
  | _, 0, _ => .error (.midiError "Incomplete variable length integer.")
  | value, fuel + 1, src =>
    match src with
    | [] => .error .stopIteration
    | b :: rest =>
      let v := value * 128 + b.val % 128
      if b.val / 128 % 2 = 0 then .ok (v, rest)
      else var_int_parse_aux v fuel rest

/-- Function `_var_int_parse`: decode a MIDI variable-length integer from the head
of the stream, returning the value and the unconsumed remainder. -/
def var_int_parse (src : List Byte) : Except PyErr (Nat × List Byte) :=
  var_int_parse_aux 0 4 src

/-- The `for i in range(4)` loop of `_var_int_bytes`: emit the base-128
groups of `value`, least significant first, each with the continuation
bit set (`(value & 0x7f) | 0x80` is `value % 128 + 128`).  A value still
nonzero after four groups raises
`MIDIError('Too long to be a variable length integer.')`. -/
def var_int_groups : Nat → Nat → Except PyErr (List Byte)
  | 0, _ => .error (.midiError "Too long to be a variable length integer.")
  | fuel + 1, value =>
    let g : Byte := ⟨value % 128 + 128, by omega⟩
    if value / 128 = 0 then .ok [g]
    else
      match var_int_groups fuel (value / 128) with
      | .error e => .error e
      | .ok rest => .ok (g :: rest)

/-- Function `_var_int_bytes`: after the loop the source clears the continuation
bit of the first (least significant) group (`array[0] & 0x7f`) and
reverses the array. -/
def var_int_bytes (value : Nat) : Except PyErr (List Byte) :=
  match var_int_groups 4 value with
  | .error e => .error e
  | .ok arr =>
    .ok (((⟨(arr.headD ⟨0, by decide⟩).val % 128, by omega⟩ : Byte) :: arr.tail).reverse)

/-! ## Value objects: `TimeSignature`, `TimeDivision`

`Tempo` is represented by its `bpm` scalar (`ℚ`); parsing a `SetTempo`
body sets `mpqn` and the `mpqn` setter computes `bpm = 60000000 / value`
(a `ZeroDivisionError` when the wire value is 0). -/

/-- The four fields of a `TimeSignature` object.  The defaults of
`TimeSignature.__init__` are `(4, 4, 1.0, 8)`. -/
structure PySignature where
  numerator : Nat
  denominator : Nat
  metronome : ℚ
  clock : Nat
  deriving DecidableEq, Repr

/-- Value of `TimeSignature()`, the default 4/4 signature. -/
def defaultSignature : PySignature := ⟨4, 4, 1, 8⟩

/-- A `TimeDivision` as parsed from the two header bytes.  In `pps` mode
the stored `frames` is the raw wire byte (`_frames`; the value 29 denotes
29.97 frames per second to callers). -/
inductive PyTimeDivision where
  | ppqn (n : Nat)
  | pps (frames : Nat) (subframes : Nat)
  deriving DecidableEq, Repr

/-- Constructor `TimeDivision(bytes)`: if bit 15 is set the division is SMPTE
(`frames = (bits & 0x7f00) >> 8`, `subframes = bits & 0x00ff`), else
PPQN (`bits & 0x7fff`).  The argument is at most two bytes, so
`bits < 65536` and the bit tests are the arithmetic comparisons below. -/
def timeDivisionOfBytes (b : List Byte) : PyTimeDivision :=
  let bits := bytesToNat b
  if 0x8000 ≤ bits then .pps (bits / 256 % 128) (bits % 256)
  else .ppqn (bits % 0x8000)

/-! ## Event taxonomy

One constructor per concrete event class of `src/midi.py`.  Payloads are
the attributes the constructors store.  `setTimeSignature` is present for
completeness but is never produced by the parser: the constructor
`SetTimeSignature.__init__` reads the undefined name `signatue` and hence
raises `NameError` on every call. -/

inductive EventKind where
  | noteOff (note velocity : Nat)
  | noteOn (note velocity : Nat)
  | noteAftertouch (note amount : Nat)
  | controller (controller value : Nat)
  | programChange (number : Nat)
  | channelAftertouch (amount : Nat)
  | pitchBend (value : ℚ)
  | sequenceNumber (number : Nat)
  | text (data : List Byte)
  | copyright (data : List Byte)
  | name (data : List Byte)
  | programName (data : List Byte)
  | lyrics (data : List Byte)
  | marker (data : List Byte)
  | cuePoint (data : List Byte)
  | channelPrefix (channel : Nat)
  | endTrack
  | setTempo (bpm : ℚ)
  | smpteOffset (data : List Byte)
  | setTimeSignature (sig : PySignature)
  | setKeySignature (key : Int) (scale : Nat)
  | proprietary (data : List Byte)
  deriving DecidableEq, Repr

/-- Is the event a `MetaEvent` (as opposed to a `ChannelEvent`)?  Mirrors
the `isinstance(event, MetaEvent)` test. -/
def isMetaKind : EventKind → Bool
  | .noteOff _ _ | .noteOn _ _ | .noteAftertouch _ _ | .controller _ _
  | .programChange _ | .channelAftertouch _ | .pitchBend _ => false
  | _ => true

/-- Test `isinstance(event, SetTempo)`. -/
def isSetTempoKind : EventKind → Bool
  | .setTempo _ => true
  | _ => false

/-- Test `isinstance(event, SetTimeSignature)`. -/
def isSetTimeSignatureKind : EventKind → Bool
  | .setTimeSignature _ => true
  | _ => false

/-- An event as it lives inside a `Sequence`.  `ticks` is the delta time
decoded from the file; `track` and `cumulative` are assigned by the track
loop of `Sequence.parse` (the source later executes `del event.cumulative`;
the field is retained here as the record of the sort key).  `channel` is
set for channel events only.  `tempo` (the `bpm` of the event's `Tempo`)
and `signature` start out `none` (`Delta.__init__` default) except that a
`SetTempo` carries its own tempo from construction; the normalization walk
stamps the rest. -/
structure PyEvent where
  kind : EventKind
  ticks : Nat
  track : Nat
  channel : Option Nat
  cumulative : Nat
  tempo : Option ℚ
  signature : Option PySignature
  deriving DecidableEq, Repr

instance : Inhabited PyEvent := ⟨⟨.endTrack, 0, 0, none, 0, none, none⟩⟩

/-- A freshly constructed event (no channel, no stamps, zero times). -/
def mkEvent (k : EventKind) : PyEvent := ⟨k, 0, 0, none, 0, none, none⟩

/-! ## Event parsing (`Event.parse` and its delegates) -/

/-- Message of the `MIDIError` raised by `Program.__init__` for an
out-of-range number.  The source wraps the offending value in single
quotes (`'MIDI Program \'{source}\' is undefined.'`); the quotes are
dropped here. -/
def programUndefinedMsg (n : Nat) : String :=
  "MIDI Program " ++ toString n ++ " is undefined."

/-- Message of the `MIDIError` raised by `ChannelEvent._parse` for an
unknown status byte.  The source formats the status in hexadecimal
(`'{status:X}'`); decimal is used here.  The typo `unkown` is the
source's. -/
def unknownEventMsg (status : Nat) : String :=
  "Encountered an unkown event: " ++ toString status ++ "."

/-- Message of the `NameError` raised by `SetTimeSignature.__init__`,
which tests `isinstance(signatue, TimeSignature)` with `signatue`
undefined.  Python's message quotes the identifier; the quotes are
dropped here. -/
def nameSignatueMsg : String := "name signatue is not defined"

/-- Method `ChannelEvent._parse`: `channel = status & 0x0f`, `type = status & 0xf0`;
dispatch on the type nibble, reading the per-variant operand bytes.
`ProgramChange` builds `Program(byte + 1)` whose constructor rejects
numbers outside `1..128`; `PitchBend` combines a little-endian 14-bit
value and maps it to `value / 0x2000 - 1`. -/
def channel_event_parse (status : Nat) (src : List Byte) :
    Except PyErr (PyEvent × List Byte) :=
  let channel := status % 16
  match status / 16 with
  | 8 =>
    match src with
    | a :: b :: rest =>
      .ok ({ mkEvent (.noteOff a.val b.val) with channel := some channel }, rest)
    | _ => .error .stopIteration
  | 9 =>
    match src with
    | a :: b :: rest =>
      .ok ({ mkEvent (.noteOn a.val b.val) with channel := some channel }, rest)
    | _ => .error .stopIteration
  | 10 =>
    match src with
    | a :: b :: rest =>
      .ok ({ mkEvent (.noteAftertouch a.val b.val) with channel := some channel }, rest)
    | _ => .error .stopIteration
  | 11 =>
    match src with
    | a :: b :: rest =>
      .ok ({ mkEvent (.controller a.val b.val) with channel := some channel }, rest)
    | _ => .error .stopIteration
  | 12 =>
    match src with
    | a :: rest =>
      if 128 < a.val + 1 then .error (.midiError (programUndefinedMsg (a.val + 1)))
      else .ok ({ mkEvent (.programChange (a.val + 1)) with channel := some channel }, rest)
    | _ => .error .stopIteration
  | 13 =>
    match src with
    | a :: rest =>
      .ok ({ mkEvent (.channelAftertouch a.val) with channel := some channel }, rest)
    | _ => .error .stopIteration
  | 14 =>
    match src with
    | a :: b :: rest =>
      let wire := a.val % 128 + b.val % 128 * 128
      .ok ({ mkEvent (.pitchBend ((wire : ℚ) / 0x2000 - 1)) with channel := some channel }, rest)
    | _ => .error .stopIteration
  | _ => .error (.midiError (unknownEventMsg status))

/-- The meta type bytes present in `MetaEvent._events`; any other type
raises `KeyError` from the dictionary lookup, before the length is read. -/
def knownMetaType (t : Nat) : Bool :=
  t = 0x00 ∨ t = 0x01 ∨ t = 0x02 ∨ t = 0x03 ∨ t = 0x04 ∨ t = 0x05 ∨ t = 0x06 ∨
  t = 0x07 ∨ t = 0x20 ∨ t = 0x2f ∨ t = 0x51 ∨ t = 0x54 ∨ t = 0x58 ∨ t = 0x59 ∨
  t = 0x7f

/-- Construct the meta event of type `t` from its payload `data`,
modelling `cls(data)` for each class in `MetaEvent._events`:
* text classes decode `data` as ASCII (`UnicodeDecodeError` on a byte
  ≥ 128);
* `SetTempo` reads `mpqn = int.from_bytes(data)` and the `mpqn` setter
  divides by it (`ZeroDivisionError` when 0);
* `SetTimeSignature.__init__` raises `NameError` (undefined `signatue`);
* `SetKeySignature` indexes `data[0]`/`data[1]` (`IndexError` when the
  payload is shorter) and decodes a negative key via `-((key ^ 0xff) + 1)`,
  which for a byte equals `key - 256`. -/
def meta_event_construct (t : Nat) (data : List Byte) : Except PyErr PyEvent :=
  match t with
  | 0x00 => .ok (mkEvent (.sequenceNumber (bytesToNat data)))
  | 0x01 =>
    if data.all (fun b => b.val < 128) then .ok (mkEvent (.text data))
    else .error .unicodeDecodeError
  | 0x02 =>
    if data.all (fun b => b.val < 128) then .ok (mkEvent (.copyright data))
    else .error .unicodeDecodeError
  | 0x03 =>
    if data.all (fun b => b.val < 128) then .ok (mkEvent (.name data))
    else .error .unicodeDecodeError
  | 0x04 =>
    if data.all (fun b => b.val < 128) then .ok (mkEvent (.programName data))
    else .error .unicodeDecodeError
  | 0x05 =>
    if data.all (fun b => b.val < 128) then .ok (mkEvent (.lyrics data))
    else .error .unicodeDecodeError
  | 0x06 =>
    if data.all (fun b => b.val < 128) then .ok (mkEvent (.marker data))
    else .error .unicodeDecodeError
  | 0x07 =>
    if data.all (fun b => b.val < 128) then .ok (mkEvent (.cuePoint data))
    else .error .unicodeDecodeError
  | 0x20 => .ok (mkEvent (.channelPrefix (bytesToNat data)))
  | 0x2f => .ok (mkEvent .endTrack)
  | 0x51 =>
    let mpqn := bytesToNat data
    if mpqn = 0 then .error .zeroDivisionError
    else .ok { mkEvent (.setTempo ((60000000 : ℚ) / mpqn)) with
               tempo := some ((60000000 : ℚ) / mpqn) }
  | 0x54 => .ok (mkEvent (.smpteOffset data))
  | 0x58 => .error (.nameError nameSignatueMsg)
  | 0x59 =>
    match data with
    | k :: s :: _ =>
      let key : Int := if 0x7f < k.val then (k.val : Int) - 256 else (k.val : Int)
      .ok (mkEvent (.setKeySignature key s.val))
    | _ => .error .indexError
  | 0x7f => .ok (mkEvent (.proprietary data))
  | _ => .error (.keyError t)

/-- Method `MetaEvent._parse`: read the type byte, look the class up in
`MetaEvent._events` (a `KeyError` for unknown types), then read a
variable-length payload length and that many payload bytes
(`StopIteration` if the stream ends early), and construct the event. -/
def meta_event_parse (src : List Byte) : Except PyErr (PyEvent × List Byte) :=
  match src with
  | [] => .error .stopIteration
  | t :: rest =>
    if knownMetaType t.val then
      match var_int_parse rest with
      | .error e => .error e
      | .ok (len, rest1) =>
        if rest1.length < len then .error .stopIteration
        else
          match meta_event_construct t.val (rest1.take len) with
          | .error e => .error e
          | .ok ev => .ok (ev, rest1.drop len)
    else .error (.keyError t.val)

/-- The status dispatch of `Event.parse`: meta (`0xff`), sysex
(`0xf0`/`0xf7`, unsupported), or channel. -/
def event_dispatch (status : Byte) (rest1 : List Byte) :
    Except PyErr (PyEvent × List Byte) :=
  if status.val = 0xff then meta_event_parse rest1
  else if status.val = 0xf7 ∨ status.val = 0xf0 then
    .error (.midiError "System exclusive events are unsupported.")
  else channel_event_parse status.val rest1

/-- Method `Event.parse`: decode the delta ticks, read the status byte, dispatch
on it, and store the decoded ticks on the event. -/
def event_parse (src : List Byte) : Except PyErr (PyEvent × List Byte) :=
  match var_int_parse src with
  | .error e => .error e
  | .ok (ticks, rest) =>
    match rest with
    | [] => .error .stopIteration
    | status :: rest1 =>
      match event_dispatch status rest1 with
      | .error e => .error e
      | .ok (ev, rest2) => .ok ({ ev with ticks := ticks }, rest2)

/-! ## Chunk framing (`Chunk.parse`) -/

/-- A parsed chunk: the 4 ID bytes and the payload. -/
structure PyChunk where
  id : List Byte
  data : List Byte
  deriving DecidableEq, Repr

/-- The ASCII bytes of `'MThd'`. -/
def mthdId : List Byte := [0x4D, 0x54, 0x68, 0x64]

/-- The ASCII bytes of `'MTrk'`. -/
def mtrkId : List Byte := [0x4D, 0x54, 0x72, 0x6B]

/-- Decode a list of ASCII bytes as a string (for error messages). -/
def asciiString (l : List Byte) : String :=
  String.mk (l.map (fun b => Char.ofNat b.val))

/-- Method `Chunk.parse` on an in-memory byte source.  The source consumes the
stream byte by byte; as soon as 4 bytes are read the ID is decoded as
ASCII (`MIDIError('Encountered a non-ASCII chunk ID.')` if a byte is
≥ 128) and compared with the required ID if one was given; after 8 bytes
the big-endian payload length is known, and reading stops once
`length + 8` bytes are in.  Exhausting the stream first raises the
incomplete-header or incomplete-chunk `MIDIError`. -/
def chunk_parse (src : List Byte) (requiredId : Option (List Byte)) :
    Except PyErr (PyChunk × List Byte) :=
  if src.length < 4 then
    .error (.midiError ("Incomplete chunk header. Read " ++ toString src.length ++ "/8 bytes."))
  else
    let idb := src.take 4
    if ¬ idb.all (fun b => b.val < 128) then
      .error (.midiError "Encountered a non-ASCII chunk ID.")
    else if requiredId.any (fun r => r ≠ idb) then
      .error (.midiError (asciiString (requiredId.getD []) ++ " chunk not found."))
    else if src.length < 8 then
      .error (.midiError ("Incomplete chunk header. Read " ++ toString src.length ++ "/8 bytes."))
    else
      let total := bytesToNat ((src.drop 4).take 4) + 8
      if src.length < total then
        .error (.midiError ("Incomplete " ++ asciiString idb ++ " chunk. Read " ++
          toString src.length ++ "/" ++ toString total ++ " bytes."))
      else .ok (⟨idb, (src.drop 8).take (total - 8)⟩, src.drop total)

/-! ## `Sequence.parse` -/

/-- The per-track event loop of `Sequence.parse`: repeatedly parse an
event from the track chunk's data, stopping at `EndTrack` (which is not
appended), converting a `StopIteration` into
`MIDIError('Incomplete track. End Track event not found.')`, and
otherwise accumulating the delta into the running `cumulative` and
recording it with the track index on the event.  (The source also
executes `event.division = sequence._division`; with `_old_division`
still `None` this stores the division without rescaling `_ticks`, so it
has no effect visible to any claim.)  The fuel argument is an iteration
bound; `sequence_parse` supplies `data.length + 1`, which is sufficient
because every parsed event consumes at least one byte. -/
def track_events_parse (trackIdx : Nat) :
    Nat → Nat → List Byte → Except PyErr (List PyEvent)
  | 0, _, _ => .error .fuelExhausted
  | fuel + 1, cumulative, data =>
    match event_parse data with
    | .error .stopIteration =>
      .error (.midiError "Incomplete track. End Track event not found.")
    | .error e => .error e
    | .ok (ev, data1) =>
      if ev.kind = .endTrack then .ok []
      else
        let cum := cumulative + ev.ticks
        match track_events_parse trackIdx fuel cum data1 with
        | .error e => .error e
        | .ok more => .ok ({ ev with cumulative := cum, track := trackIdx } :: more)

/-- The `for index in range(tracks)` loop of `Sequence.parse`: parse one
chunk per iteration; a chunk whose ID is `'MTrk'` is parsed as a track
(and the track counter advances), any other chunk is skipped. -/
def tracks_parse : Nat → Nat → List Byte → Except PyErr (List PyEvent)
  | 0, _, _ => .ok []
  | n + 1, trackIdx, src =>
    match chunk_parse src none with
    | .error e => .error e
    | .ok (ch, rest) =>
      if ch.id = mtrkId then
        match track_events_parse trackIdx (ch.data.length + 1) 0 ch.data with
        | .error e => .error e
        | .ok evs =>
          match tracks_parse n (trackIdx + 1) rest with
          | .error e => .error e
          | .ok more => .ok (evs ++ more)
      else tracks_parse n trackIdx rest

/-- The sort key relation of `sequence.sort(key=cumulative)`. -/
def cumLE (a b : PyEvent) : Prop := a.cumulative ≤ b.cumulative

instance : DecidableRel cumLE := fun _ _ => Nat.decLe _ _

instance : IsTotal PyEvent cumLE := ⟨fun _ _ => Nat.le_total _ _⟩

instance : IsTrans PyEvent cumLE := ⟨fun _ _ _ => Nat.le_trans⟩

/-- Is the ratio by which `Time.__init__` rescales `_ticks` defined for
this sequence division?  Building `Time(event)` inside the normalization
walk computes `480 / division.ppqn` (same mode) or
`480 / (division.pps / tempo.bps)` (mode mismatch), so a PPQN of 0 or an
SMPTE `pps` of 0 (`frames == 0` or `subframes == 0`) raises
`ZeroDivisionError` there. -/
def ratioDefined : PyTimeDivision → Bool
  | .ppqn n => n ≠ 0
  | .pps frames subframes => frames ≠ 0 && subframes ≠ 0

/-- One step of the normalization walk of `Sequence.parse` over an event:
a `SetTempo` updates the running tempo from its own `tempo` attribute,
every other event is stamped with the running tempo; likewise for
`SetTimeSignature` and the running signature.  Returns the new running
tempo, the new running signature, and the updated event. -/
def stamp_step (tempo : ℚ) (sig : PySignature) (e : PyEvent) :
    ℚ × PySignature × PyEvent :=
  let p1 : ℚ × PyEvent :=
    match e.kind with
    | .setTempo bpm => (bpm, e)
    | _ => (tempo, { e with tempo := some tempo })
  let p2 : PySignature × PyEvent :=
    match p1.2.kind with
    | .setTimeSignature s => (s, p1.2)
    | _ => (sig, { p1.2 with signature := some sig })
  (p1.1, p2.1, p2.2)

/-- The normalization walk (`for event in sequence:` at the end of
`Sequence.parse`): stamp each event with the running tempo and signature
(seeded with the defaults `Tempo()` = 120 BPM and `TimeSignature()` =
4/4).  The `times[event.track] += event` line builds a fresh `Time` from
the event, whose constructor rescales ticks by the division ratio; the
only effect of that line visible to any claim is its failure mode, the
`ZeroDivisionError` raised when the ratio's denominator is zero
(`ratioDefined` false), which is checked per event here.  The bar/beat
accumulation it performs and the resulting `event.time` are not read by
any claim and are not modelled. -/
def stamp_walk (division : PyTimeDivision) :
    ℚ → PySignature → List PyEvent → Except PyErr (List PyEvent)
  | _, _, [] => .ok []
  | tempo, sig, e :: rest =>
    if ratioDefined division then
      let (tempo1, sig1, e1) := stamp_step tempo sig e
      match stamp_walk division tempo1 sig1 rest with
      | .error err => .error err
      | .ok more => .ok (e1 :: more)
    else .error .zeroDivisionError

/-- A parsed `Sequence`: its format, division, and chronological event
list. -/
structure PySequence where
  format : Option Nat
  division : PyTimeDivision
  events : List PyEvent
  deriving DecidableEq, Repr

/-- The tail of `Sequence.parse` after the track loop: sort the event
list by `cumulative` (Python's `list.sort` is a stable ascending sort,
which `List.insertionSort` with the reflexive key order reproduces
exactly), then evaluate `tracks = sequence.tracks`, whose
`max(self, key=track)` raises `ValueError` on an empty sequence, and run
the normalization walk with the default tempo and signature. -/
def sequence_post (division : PyTimeDivision) (evs : List PyEvent) :
    Except PyErr (List PyEvent) :=
  let sorted := List.insertionSort cumLE evs
  match sorted with
  | [] => .error (.valueError "max() arg is an empty sequence")
  | _ => stamp_walk division 120 defaultSignature sorted

/-- Method `Sequence.parse`: parse the required `MThd` chunk, decode
`format`/`ntracks`/`division` from its payload, run the track loop, and
normalize. -/
def sequence_parse (src : List Byte) : Except PyErr PySequence :=
  match chunk_parse src (some mthdId) with
  | .error e => .error e
  | .ok (hdr, rest) =>
    let format := bytesToNat (hdr.data.take 2)
    let ntracks := bytesToNat ((hdr.data.drop 2).take 2)
    let division := timeDivisionOfBytes ((hdr.data.drop 4).take 2)
    match tracks_parse ntracks 0 rest with
    | .error e => .error e
    | .ok evs =>
      match sequence_post division evs with
      | .error e => .error e
      | .ok stamped => .ok ⟨some format, division, stamped⟩

/-! ## `TimeAbsolute.triple` setter (`src/midi.py` lines 450–469) -/

/-- The fields of a `TimeSpecificationNode` read by the triple setter and
the lookup.  (The node's `division` and `tempo` fields are not consulted
by this code path and are omitted.)  `TimeSpecificationNode.__init__`
defaults are `note=0.0, bar=1, beat=1, tick=1, cumulative=0` with a 4/4
signature. -/
structure TSNode where
  note : ℚ
  bar : Int
  beat : Int
  tick : Int
  cumulative : Int
  signature : PySignature
  deriving DecidableEq, Repr

/-- A `TimeSpecificationNode()` with all defaults. -/
def defaultTSNode : TSNode := ⟨0, 1, 1, 1, 0, defaultSignature⟩

/-- Lookup `TimeSpecification.triple`: scan the node list in reverse and return
the first node at or before the triple in the lexicographic
`(bar, beat, tick)` order (strictly smaller `bar`, or equal `bar` and
strictly smaller `beat`, or equal `bar`/`beat` and `tick ≤` the target);
`None` when no node qualifies. -/
def spec_triple_lookup (spec : List TSNode) (bar beat tick : Int) :
    Option TSNode :=
  spec.reverse.find? (fun n =>
    n.bar < bar ∨ (n.bar = bar ∧ (n.beat < beat ∨ (n.beat = beat ∧ n.tick ≤ tick))))

/-- The message of the out-of-range `MIDIError` of the triple setter
(`'Triple out of range: {bar}|{beat}|{tick}.'`). -/
def tripleRangeMsg (bar beat tick : Int) : String :=
  "Triple out of range: " ++ toString bar ++ "|" ++ toString beat ++ "|" ++
    toString tick ++ "."

/-- The `TimeAbsolute.triple` setter.  In source order: reject
`bar < 1 or beat < 1 or tick < 1`; raise
`'Cannot set triple without a time specification.'` when the time has no
specification or the lookup finds no node; reject
`beat > node.signature.numerator`; evaluate
`1920 / node.signature.denominator` (float division, a
`ZeroDivisionError` for a zero denominator) and reject
`tick > 1920 / node.signature.denominator`; otherwise store the new
`_note` value `(bar-1)·num/denom + (beat-1)/denom + (tick-1)/1920`. -/
def triple_set (spec : Option (List TSNode)) (bar beat tick : Int) :
    Except PyErr ℚ :=
  if bar < 1 ∨ beat < 1 ∨ tick < 1 then
    .error (.midiError (tripleRangeMsg bar beat tick))
  else
    match spec with
    | none => .error (.midiError "Cannot set triple without a time specification.")
    | some s =>
      match spec_triple_lookup s bar beat tick with
      | none => .error (.midiError "Cannot set triple without a time specification.")
      | some node =>
        if (node.signature.numerator : Int) < beat then
          .error (.midiError (tripleRangeMsg bar beat tick))
        else if node.signature.denominator = 0 then .error .zeroDivisionError
        else if (1920 : ℚ) / node.signature.denominator < (tick : ℚ) then
          .error (.midiError (tripleRangeMsg bar beat tick))
        else
          .ok (((bar : ℚ) - 1) * ((node.signature.numerator : ℚ) / node.signature.denominator)
               + ((beat : ℚ) - 1) / node.signature.denominator
               + ((tick : ℚ) - 1) / 1920)

/-! ## `Sequence.format` setter (`src/midi.py` lines 1623–1641) -/

/-- Property `Sequence.tracks` on a nonempty event list:
`max(self, key=track).track + 1`. -/
def seq_tracks_val (events : List PyEvent) : Nat :=
  events.foldl (fun m e => max m e.track) 0 + 1

/-- Message of the `MIDIError` raised for a format-0 sequence with more
than one track; the source interpolates `len(self)` (the number of
events) into it. -/
def invalidFormat0Msg (n : Nat) : String :=
  "Invalid format 0 sequence, contains " ++ toString n ++ " tracks."

/-- Message of the unsupported-conversion `MIDIError`. -/
def formatConvMsg (fromF toF : Nat) : String :=
  "Cannot convert a format " ++ toString fromF ++ " sequence to format " ++
    toString toF ++ "."

/-- The `Sequence.format` setter: with no current format or an empty
sequence, store the value; a nonempty format-0 sequence set to 1 is
converted (rejecting multi-track format 0), moving every `MetaEvent` to
track 0 and every other event to track 1; any other change of format on a
nonempty sequence raises the conversion `MIDIError`; setting the current
format again is a no-op. -/
def format_set (s : PySequence) (value : Nat) : Except PyErr PySequence :=
  match s.format with
  | none => .ok { s with format := some value }
  | some f =>
    if s.events.isEmpty then .ok { s with format := some value }
    else if f = 0 ∧ value = 1 then
      if seq_tracks_val s.events ≠ 1 then
        .error (.midiError (invalidFormat0Msg s.events.length))
      else
        .ok { s with
              format := some 1
              events := s.events.map (fun e =>
                { e with track := if isMetaKind e.kind then 0 else 1 }) }
    else if f ≠ value then .error (.midiError (formatConvMsg f value))
    else .ok s

/-! ## `PitchBend._parameters` (`src/midi.py` lines 1209–1211) -/

/-- Method `PitchBend._parameters` evaluates `round((self.vale + 1) * 0x2000)`,
but no `vale` attribute is ever assigned (the constructor stores
`self.value`), so the attribute access raises `AttributeError`
unconditionally and no wire bytes are ever produced.  Python's message
quotes the class and attribute names; it is abbreviated here. -/
def pitch_bend_parameters (_value : ℚ) : Except PyErr (Nat × Nat) :=
  .error (.attributeError "PitchBend object has no attribute vale")

/-! ## Concrete inputs used by the theorems -/

/-- The minimal empty format-0 file of the specification's scenario 1
(`MThd`, format 0, 1 track, division 480 PPQN, one `MTrk` whose only
event is `00 FF 2F 00`, i.e. an `EndTrack` at delta 0). -/
def minimalFile : List Byte :=
  [0x4D, 0x54, 0x68, 0x64, 0x00, 0x00, 0x00, 0x06, 0x00, 0x00, 0x00, 0x01,
   0x01, 0xE0, 0x4D, 0x54, 0x72, 0x6B, 0x00, 0x00, 0x00, 0x04, 0x00, 0xFF,
   0x2F, 0x00]

/-- A format-0 file with one track holding, at delta 0 each: a
`NoteOn(channel 0, note 60, velocity 100)`, a `SetTempo` with
mpqn = 600000 (100 BPM), and the terminating `EndTrack`. -/
def exampleFile : List Byte :=
  [0x4D, 0x54, 0x68, 0x64, 0x00, 0x00, 0x00, 0x06, 0x00, 0x00, 0x00, 0x01,
   0x01, 0xE0,
   0x4D, 0x54, 0x72, 0x6B, 0x00, 0x00, 0x00, 0x0F,
   0x00, 0x90, 0x3C, 0x64,
   0x00, 0xFF, 0x51, 0x03, 0x09, 0x27, 0xC0,
   0x00, 0xFF, 0x2F, 0x00]

/-- The `NoteOn` of `exampleFile` as `Sequence.parse` leaves it. -/
def exampleNoteOn : PyEvent :=
  ⟨.noteOn 60 100, 0, 0, some 0, 0, some 120, some defaultSignature⟩

/-- The tempo carried by the `SetTempo` of `exampleFile`, written as the
unreduced quotient the `mpqn` setter computes; its value is 100 BPM. -/
def exampleBpm : ℚ := (60000000 : ℚ) / ((600000 : ℕ) : ℚ)

/-- The `SetTempo` of `exampleFile` as `Sequence.parse` leaves it. -/
def exampleSetTempo : PyEvent :=
  ⟨.setTempo exampleBpm, 0, 0, none, 0, some exampleBpm, some defaultSignature⟩

/-- The result of `Sequence.parse` on `exampleFile`. -/
def exampleParsed : PySequence :=
  ⟨some 0, .ppqn 480, [exampleNoteOn, exampleSetTempo]⟩

/-! ## Theorems -/

/-- Claim C1: the claim asserts that parsing the minimal empty format-0
file succeeds with format 0, one track, a PPQN-480 division, zero
caller-visible events, and a byte-identical emit.  The code instead
fails: after the header and the empty track are read, `Sequence.parse`
evaluates `tracks = sequence.tracks`, and `Sequence.tracks` computes
`max(self, key=track)` over the empty event list, which raises an
uncaught `ValueError` — despite `Sequence.parse`'s own documentation
promising a `MIDIError` on bad input only.  (The listed byte string is
26 bytes long, not 25 as the claim counts them.) -/
theorem minimal_parse_valueerror :
    sequence_parse minimalFile =
      .error (.valueError "max() arg is an empty sequence") := by
  rfl

/-- Claim C2, counterexample: `exampleFile` parses successfully into the
event list `[NoteOn, SetTempo]`, both at cumulative tick 0, with the
`SetTempo` event *after* the `NoteOn` — `sequence.sort(key=cumulative)`
sorts only by the cumulative tick, and Python's stable sort keeps equal
keys in their original track order, so no meta-priority reordering takes
place and the claim's ordering is violated at this input. -/
theorem parse_sort_no_meta_priority_cex :
    sequence_parse exampleFile = .ok exampleParsed ∧
    exampleParsed.events = [exampleNoteOn, exampleSetTempo] ∧
    isSetTempoKind exampleNoteOn.kind = false ∧
    isSetTempoKind exampleSetTempo.kind = true ∧
    exampleNoteOn.cumulative = exampleSetTempo.cumulative := by
  refine ⟨by rfl, rfl, rfl, rfl, rfl⟩

/-- Claim C3, counterexample: the claim says the caller-visible list
contains no `SetTempo` events for every well-formed input, but parsing
`exampleFile` leaves its `SetTempo` in the list — `Sequence.parse` never
removes `SetTempo`, `SetTimeSignature`, or `ProgramChange` events (only
`EndTrack` is withheld, by breaking out of the track loop before the
append). -/
theorem parse_retains_settempo_cex :
    sequence_parse exampleFile = .ok exampleParsed ∧
    exampleParsed.events.any (fun e => isSetTempoKind e.kind) = true := by
  refine ⟨by rfl, by rfl⟩

/-! ### Variable-length integer lemmas -/

/-- One continuation step of the decoding loop. -/
theorem var_int_parse_aux_cont (value fuel : Nat) (b : Byte) (rest : List Byte)
    (h : 128 ≤ b.val) :
    var_int_parse_aux value (fuel + 1) (b :: rest) =
      var_int_parse_aux (value * 128 + b.val % 128) fuel rest := by
  have hb := b.isLt
  simp only [var_int_parse_aux]
  rw [if_neg (by omega)]

/-- A terminating byte ends the decoding loop. -/
theorem var_int_parse_aux_stop (value fuel : Nat) (b : Byte) (rest : List Byte)
    (h : b.val < 128) :
    var_int_parse_aux value (fuel + 1) (b :: rest) =
      .ok (value * 128 + b.val % 128, rest) := by
  simp only [var_int_parse_aux]
  rw [if_pos (by omega)]

/-- Decoding a single terminating byte. -/
theorem var_int_parse_one (b0 : Byte) (h0 : b0.val < 128) :
    var_int_parse [b0] = .ok (b0.val, []) := by
  rw [var_int_parse, var_int_parse_aux_stop _ _ _ _ h0]
  exact congrArg Except.ok (congrArg (fun v => (v, ([] : List Byte))) (by omega))

/-- Decoding a two-byte encoding. -/
theorem var_int_parse_two (b0 b1 : Byte) (h0 : 128 ≤ b0.val) (h1 : b1.val < 128) :
    var_int_parse [b0, b1] = .ok (b0.val % 128 * 128 + b1.val, []) := by
  rw [var_int_parse, var_int_parse_aux_cont _ _ _ _ h0,
    var_int_parse_aux_stop _ _ _ _ h1]
  exact congrArg Except.ok (congrArg (fun v => (v, ([] : List Byte))) (by omega))

/-- Decoding a three-byte encoding. -/
theorem var_int_parse_three (b0 b1 b2 : Byte) (h0 : 128 ≤ b0.val)
    (h1 : 128 ≤ b1.val) (h2 : b2.val < 128) :
    var_int_parse [b0, b1, b2] =
      .ok ((b0.val % 128 * 128 + b1.val % 128) * 128 + b2.val, []) := by
  rw [var_int_parse, var_int_parse_aux_cont _ _ _ _ h0,
    var_int_parse_aux_cont _ _ _ _ h1, var_int_parse_aux_stop _ _ _ _ h2]
  exact congrArg Except.ok (congrArg (fun v => (v, ([] : List Byte))) (by omega))

/-- Decoding a four-byte encoding. -/
theorem var_int_parse_four (b0 b1 b2 b3 : Byte) (h0 : 128 ≤ b0.val)
    (h1 : 128 ≤ b1.val) (h2 : 128 ≤ b2.val) (h3 : b3.val < 128) :
    var_int_parse [b0, b1, b2, b3] =
      .ok (((b0.val % 128 * 128 + b1.val % 128) * 128 + b2.val % 128) * 128 + b3.val,
           []) := by
  rw [var_int_parse, var_int_parse_aux_cont _ _ _ _ h0,
    var_int_parse_aux_cont _ _ _ _ h1, var_int_parse_aux_cont _ _ _ _ h2,
    var_int_parse_aux_stop _ _ _ _ h3]
  exact congrArg Except.ok (congrArg (fun v => (v, ([] : List Byte))) (by omega))

/-- Claim C7: decoding fails with the too-long `MIDIError` (the code's
realization of `VarIntTooLong`, raised with the message
`'Incomplete variable length integer.'`) exactly when the first four
bytes all carry the continuation bit, and fails with an uncaught
`StopIteration` (the code's realization of `VarIntTruncated`) when the
stream ends while every byte read so far carries the continuation
bit. -/
theorem varint_error_modes :
    (∀ (b0 b1 b2 b3 : Byte) (rest : List Byte),
       128 ≤ b0.val → 128 ≤ b1.val → 128 ≤ b2.val → 128 ≤ b3.val →
       var_int_parse (b0 :: b1 :: b2 :: b3 :: rest) =
         .error (.midiError "Incomplete variable length integer.")) ∧
    (∀ l : List Byte, l.length ≤ 3 → (∀ b ∈ l, 128 ≤ b.val) →
       var_int_parse l = .error .stopIteration) := by
  constructor
  · intro b0 b1 b2 b3 rest h0 h1 h2 h3
    rw [var_int_parse, var_int_parse_aux_cont _ _ _ _ h0,
      var_int_parse_aux_cont _ _ _ _ h1, var_int_parse_aux_cont _ _ _ _ h2,
      var_int_parse_aux_cont _ _ _ _ h3]
    rfl
  · intro l hlen hmem
    match l with
    | [] => rfl
    | [b0] =>
      rw [var_int_parse, var_int_parse_aux_cont _ _ _ _ (hmem b0 (by simp))]
      rfl
    | [b0, b1] =>
      rw [var_int_parse, var_int_parse_aux_cont _ _ _ _ (hmem b0 (by simp)),
        var_int_parse_aux_cont _ _ _ _ (hmem b1 (by simp))]
      rfl
    | [b0, b1, b2] =>
      rw [var_int_parse, var_int_parse_aux_cont _ _ _ _ (hmem b0 (by simp)),
        var_int_parse_aux_cont _ _ _ _ (hmem b1 (by simp)),
        var_int_parse_aux_cont _ _ _ _ (hmem b2 (by simp))]
      rfl
    | _ :: _ :: _ :: _ :: _ => simp at hlen

/-- Witness for C7 at concrete inputs: four continuation bytes trigger
the too-long error, a single continuation byte followed by the end of
the stream triggers the truncation failure. -/
theorem varint_error_modes_witness :
    var_int_parse [⟨128, by omega⟩, ⟨129, by omega⟩, ⟨130, by omega⟩, ⟨131, by omega⟩] =
      .error (.midiError "Incomplete variable length integer.") ∧
    var_int_parse [⟨255, by omega⟩] = .error .stopIteration :=
  ⟨varint_error_modes.1 ⟨128, by omega⟩ ⟨129, by omega⟩ ⟨130, by omega⟩
     ⟨131, by omega⟩ [] (by show (128:ℕ) ≤ 128; omega) (by show (128:ℕ) ≤ 129; omega)
     (by show (128:ℕ) ≤ 130; omega) (by show (128:ℕ) ≤ 131; omega),
   varint_error_modes.2 [⟨255, by omega⟩] (by simp)
     (by intro b hb; simp at hb; subst hb; show (128:ℕ) ≤ 255; omega)⟩

/-- Evaluating the encoder on a value below 128. -/
theorem var_int_bytes_one (n : Nat) (h : n < 128) :
    var_int_bytes n = .ok [⟨n, by omega⟩] := by
  rw [var_int_bytes, var_int_groups]
  rw [if_pos (by omega)]
  simp only [List.headD, List.tail_cons, List.reverse_singleton]
  exact congrArg Except.ok (congrArg (fun b => [b])
    (Fin.ext (by show (n % 128 + 128) % 128 = n; omega)))

/-- Evaluating the encoder on a two-group value. -/
theorem var_int_bytes_two (n : Nat) (h1 : 128 ≤ n) (h2 : n < 16384) :
    var_int_bytes n =
      .ok [⟨n / 128 % 128 + 128, by omega⟩, ⟨(n % 128 + 128) % 128, by omega⟩] := by
  rw [var_int_bytes, var_int_groups]
  rw [if_neg (by omega)]
  rw [var_int_groups]
  rw [if_pos (by omega)]
  rfl

/-- Evaluating the encoder on a three-group value. -/
theorem var_int_bytes_three (n : Nat) (h1 : 16384 ≤ n) (h2 : n < 2097152) :
    var_int_bytes n =
      .ok [⟨n / 128 / 128 % 128 + 128, by omega⟩, ⟨n / 128 % 128 + 128, by omega⟩,
           ⟨(n % 128 + 128) % 128, by omega⟩] := by
  rw [var_int_bytes, var_int_groups]
  rw [if_neg (by omega)]
  rw [var_int_groups]
  rw [if_neg (by omega)]
  rw [var_int_groups]
  rw [if_pos (by omega)]
  rfl

/-- Evaluating the encoder on a four-group value. -/
theorem var_int_bytes_four (n : Nat) (h1 : 2097152 ≤ n) (h2 : n < 268435456) :
    var_int_bytes n =
      .ok [⟨n / 128 / 128 / 128 % 128 + 128, by omega⟩,
           ⟨n / 128 / 128 % 128 + 128, by omega⟩, ⟨n / 128 % 128 + 128, by omega⟩,
           ⟨(n % 128 + 128) % 128, by omega⟩] := by
  rw [var_int_bytes, var_int_groups]
  rw [if_neg (by omega)]
  rw [var_int_groups]
  rw [if_neg (by omega)]
  rw [var_int_groups]
  rw [if_neg (by omega)]
  rw [var_int_groups]
  rw [if_pos (by omega)]
  rfl

/-- Claim C8: for every `n` up to `0x0FFFFFFF` the encoder succeeds with
between 1 and 4 bytes, and decoding the encoding returns `n` with the
stream fully consumed. -/
theorem varint_roundtrip (n : Nat) (hn : n ≤ 0x0FFFFFFF) :
    ∃ l : List Byte, var_int_bytes n = .ok l ∧ 1 ≤ l.length ∧ l.length ≤ 4 ∧
      var_int_parse l = .ok (n, []) := by
  by_cases c1 : n < 128
  · refine ⟨_, var_int_bytes_one n c1, by simp, by simp, ?_⟩
    rw [var_int_parse_one ⟨n, by omega⟩ c1]
  · by_cases c2 : n < 16384
    · refine ⟨_, var_int_bytes_two n (by omega) c2, by simp, by simp, ?_⟩
      rw [var_int_parse_two ⟨n / 128 % 128 + 128, by omega⟩
        ⟨(n % 128 + 128) % 128, by omega⟩
        (by show (128:ℕ) ≤ n / 128 % 128 + 128; omega)
        (by show (n % 128 + 128) % 128 < 128; omega)]
      exact congrArg Except.ok (congrArg (fun v => (v, ([] : List Byte)))
        (by show (n / 128 % 128 + 128) % 128 * 128 + (n % 128 + 128) % 128 = n
            omega))
    · by_cases c3 : n < 2097152
      · refine ⟨_, var_int_bytes_three n (by omega) c3, by simp, by simp, ?_⟩
        rw [var_int_parse_three ⟨n / 128 / 128 % 128 + 128, by omega⟩
          ⟨n / 128 % 128 + 128, by omega⟩ ⟨(n % 128 + 128) % 128, by omega⟩
          (by show (128:ℕ) ≤ n / 128 / 128 % 128 + 128; omega)
          (by show (128:ℕ) ≤ n / 128 % 128 + 128; omega)
          (by show (n % 128 + 128) % 128 < 128; omega)]
        exact congrArg Except.ok (congrArg (fun v => (v, ([] : List Byte)))
          (by show ((n / 128 / 128 % 128 + 128) % 128 * 128 +
                (n / 128 % 128 + 128) % 128) * 128 + (n % 128 + 128) % 128 = n
              omega))
      · refine ⟨_, var_int_bytes_four n (by omega) (by omega), by simp, by simp, ?_⟩
        rw [var_int_parse_four ⟨n / 128 / 128 / 128 % 128 + 128, by omega⟩
          ⟨n / 128 / 128 % 128 + 128, by omega⟩ ⟨n / 128 % 128 + 128, by omega⟩
          ⟨(n % 128 + 128) % 128, by omega⟩
          (by show (128:ℕ) ≤ n / 128 / 128 / 128 % 128 + 128; omega)
          (by show (128:ℕ) ≤ n / 128 / 128 % 128 + 128; omega)
          (by show (128:ℕ) ≤ n / 128 % 128 + 128; omega)
          (by show (n % 128 + 128) % 128 < 128; omega)]
        exact congrArg Except.ok (congrArg (fun v => (v, ([] : List Byte)))
          (by show (((n / 128 / 128 / 128 % 128 + 128) % 128 * 128 +
                (n / 128 / 128 % 128 + 128) % 128) * 128 +
                (n / 128 % 128 + 128) % 128) * 128 + (n % 128 + 128) % 128 = n
              omega))

/-- Witness for C8 at `n = 480`. -/
theorem varint_roundtrip_witness :
    ∃ l : List Byte, var_int_bytes 480 = .ok l ∧ 1 ≤ l.length ∧ l.length ≤ 4 ∧
      var_int_parse l = .ok (480, []) :=
  varint_roundtrip 480 (by omega)


/-! ### Normalization-walk lemmas -/

/-- Stepping with `stamp_step` never changes the event's kind. -/
theorem stamp_step_kind (t : ℚ) (s : PySignature) (e : PyEvent) :
    ((stamp_step t s e).2.2).kind = e.kind := by
  obtain ⟨k, tk, tr, ch, cu, tp, sg⟩ := e
  cases k <;> rfl

/-- Stepping with `stamp_step` never changes the event's cumulative tick. -/
theorem stamp_step_cumulative (t : ℚ) (s : PySignature) (e : PyEvent) :
    ((stamp_step t s e).2.2).cumulative = e.cumulative := by
  obtain ⟨k, tk, tr, ch, cu, tp, sg⟩ := e
  cases k <;> rfl

/-- On a non-`SetTempo` event the walk's tempo is unchanged and the event
is stamped with it. -/
theorem stamp_step_not_settempo (t : ℚ) (s : PySignature) (e : PyEvent)
    (h : isSetTempoKind e.kind = false) :
    (stamp_step t s e).1 = t ∧ ((stamp_step t s e).2.2).tempo = some t := by
  obtain ⟨k, tk, tr, ch, cu, tp, sg⟩ := e
  cases k <;> first
    | exact ⟨rfl, rfl⟩
    | exact absurd h (by simp [isSetTempoKind])

/-- On a non-`SetTimeSignature` event the walk's signature is unchanged
and the event is stamped with it. -/
theorem stamp_step_not_sts (t : ℚ) (s : PySignature) (e : PyEvent)
    (h : isSetTimeSignatureKind e.kind = false) :
    (stamp_step t s e).2.1 = s ∧ ((stamp_step t s e).2.2).signature = some s := by
  obtain ⟨k, tk, tr, ch, cu, tp, sg⟩ := e
  cases k <;> first
    | exact ⟨rfl, rfl⟩
    | exact absurd h (by simp [isSetTimeSignatureKind])

/-- The walk leaves the cumulative ticks and the kinds of the event list
(pointwise) unchanged. -/
theorem stamp_walk_map (d : PyTimeDivision) :
    ∀ (t : ℚ) (s : PySignature) (l out : List PyEvent),
      stamp_walk d t s l = .ok out →
      out.map PyEvent.cumulative = l.map PyEvent.cumulative ∧
      out.map PyEvent.kind = l.map PyEvent.kind := by
  intro t s l
  induction l generalizing t s with
  | nil =>
    intro out h
    rw [stamp_walk] at h
    injection h with h
    subst h
    exact ⟨rfl, rfl⟩
  | cons e rest ih =>
    intro out h
    rw [stamp_walk] at h
    by_cases hr : ratioDefined d
    · rw [if_pos hr] at h
      split at h
      rename_i t1 s1 e1 hse
      split at h
      · cases h
      · rename_i more hw
        injection h with h
        subst h
        have hmaps := ih t1 s1 more hw
        have hk := stamp_step_kind t s e
        have hc := stamp_step_cumulative t s e
        rw [hse] at hk hc
        dsimp only at hk hc
        simp only [List.map_cons, hmaps.1, hmaps.2, hk, hc]
        exact ⟨trivial, trivial⟩
    · rw [if_neg hr] at h
      cases h


/-- If the walk starts with tempo `t` and signature `s`, an output event
preceded by no `SetTempo` and itself not a `SetTempo` carries tempo `t`,
and one preceded by no `SetTimeSignature` and itself not one carries
signature `s`. -/
theorem stamp_walk_defaults (d : PyTimeDivision) :
    ∀ (t : ℚ) (s : PySignature) (l out : List PyEvent),
      stamp_walk d t s l = .ok out → ∀ i, i < out.length →
      ((∀ e ∈ out.take i, isSetTempoKind e.kind = false) →
        isSetTempoKind (out.getD i default).kind = false →
        (out.getD i default).tempo = some t) ∧
      ((∀ e ∈ out.take i, isSetTimeSignatureKind e.kind = false) →
        isSetTimeSignatureKind (out.getD i default).kind = false →
        (out.getD i default).signature = some s) := by
  intro t s l
  induction l generalizing t s with
  | nil =>
    intro out h i hi
    rw [stamp_walk] at h
    injection h with h
    subst h
    simp at hi
  | cons e rest ih =>
    intro out h i hi
    rw [stamp_walk] at h
    by_cases hr : ratioDefined d
    · rw [if_pos hr] at h
      split at h
      rename_i t1 s1 e1 hse
      split at h
      · cases h
      · rename_i more hw
        injection h with h
        subst h
        have hk := stamp_step_kind t s e
        rw [hse] at hk
        dsimp only at hk
        match i with
        | 0 =>
          constructor
          · intro _ hnot
            simp only [List.getD_cons_zero] at hnot ⊢
            rw [hk] at hnot
            have hstep := stamp_step_not_settempo t s e hnot
            rw [hse] at hstep
            dsimp only at hstep
            exact hstep.2
          · intro _ hnot
            simp only [List.getD_cons_zero] at hnot ⊢
            rw [hk] at hnot
            have hstep := stamp_step_not_sts t s e hnot
            rw [hse] at hstep
            dsimp only at hstep
            exact hstep.2
        | j + 1 =>
          have hj : j < more.length := by simpa using hi
          constructor
          · intro hpre hnot
            have he1 : isSetTempoKind e1.kind = false :=
              hpre e1 (by simp [List.take_succ_cons])
            rw [hk] at he1
            have hstep := stamp_step_not_settempo t s e he1
            rw [hse] at hstep
            dsimp only at hstep
            simp only [List.getD_cons_succ] at hnot ⊢
            have hrec := (ih t1 s1 more hw j hj).1
              (fun e2 he2 => hpre e2 (by simp [List.take_succ_cons, he2])) hnot
            rw [hstep.1] at hrec
            exact hrec
          · intro hpre hnot
            have he1 : isSetTimeSignatureKind e1.kind = false :=
              hpre e1 (by simp [List.take_succ_cons])
            rw [hk] at he1
            have hstep := stamp_step_not_sts t s e he1
            rw [hse] at hstep
            dsimp only at hstep
            simp only [List.getD_cons_succ] at hnot ⊢
            have hrec := (ih t1 s1 more hw j hj).2
              (fun e2 he2 => hpre e2 (by simp [List.take_succ_cons, he2])) hnot
            rw [hstep.1] at hrec
            exact hrec
    · rw [if_neg hr] at h
      cases h


/-! ### Parser kind lemmas -/

/-- Constructing with `meta_event_construct` never yields a `SetTimeSignature` (that branch
raises `NameError`). -/
theorem meta_event_construct_not_sts (t : Nat) (data : List Byte) (e : PyEvent)
    (h : meta_event_construct t data = .ok e) :
    isSetTimeSignatureKind e.kind = false := by
  unfold meta_event_construct at h
  split at h
  all_goals (try dsimp only at h)
  all_goals (try split at h)
  all_goals (try cases h)
  all_goals rfl

/-- Parsing with `channel_event_parse` never yields a `SetTimeSignature` or an
`EndTrack`. -/
theorem channel_event_parse_kinds (status : Nat) (src : List Byte)
    (e : PyEvent) (r : List Byte) (h : channel_event_parse status src = .ok (e, r)) :
    isSetTimeSignatureKind e.kind = false ∧ e.kind ≠ .endTrack := by
  unfold channel_event_parse at h
  split at h
  all_goals (try split at h)
  all_goals (try split at h)
  all_goals (try cases h)
  all_goals exact ⟨rfl, by simp [mkEvent]⟩

/-- Parsing with `meta_event_parse` never yields a `SetTimeSignature`. -/
theorem meta_event_parse_not_sts (src : List Byte) (e : PyEvent) (r : List Byte)
    (h : meta_event_parse src = .ok (e, r)) :
    isSetTimeSignatureKind e.kind = false := by
  unfold meta_event_parse at h
  split at h
  · cases h
  · split at h
    · split at h
      · cases h
      · split at h
        · cases h
        · split at h
          · cases h
          · rename_i ev hcons
            injection h with he
            injection he with he1 he2
            subst he1
            exact meta_event_construct_not_sts _ _ _ hcons
    · cases h

/-- Dispatching with `event_dispatch` never yields a `SetTimeSignature`. -/
theorem event_dispatch_not_sts (status : Byte) (rest1 : List Byte)
    (e : PyEvent) (r : List Byte) (h : event_dispatch status rest1 = .ok (e, r)) :
    isSetTimeSignatureKind e.kind = false := by
  unfold event_dispatch at h
  split at h
  · exact meta_event_parse_not_sts _ _ _ h
  · split at h
    · cases h
    · exact (channel_event_parse_kinds _ _ _ _ h).1

/-- Parsing with `event_parse` never yields a `SetTimeSignature`. -/
theorem event_parse_not_sts (src : List Byte) (e : PyEvent) (r : List Byte)
    (h : event_parse src = .ok (e, r)) :
    isSetTimeSignatureKind e.kind = false := by
  unfold event_parse at h
  split at h
  · cases h
  · split at h
    · cases h
    · split at h
      · cases h
      · rename_i ev rest2 hsub
        injection h with he
        injection he with he1 he2
        subst he1
        show isSetTimeSignatureKind ev.kind = false
        exact event_dispatch_not_sts _ _ _ _ hsub


/-- Events collected by the track loop are never `EndTrack` (the loop
breaks before appending) and never `SetTimeSignature` (the parser raises
`NameError` on them). -/
theorem track_events_parse_kinds (trackIdx : Nat) :
    ∀ (fuel cum : Nat) (data : List Byte) (out : List PyEvent),
      track_events_parse trackIdx fuel cum data = .ok out →
      ∀ e ∈ out, e.kind ≠ .endTrack ∧ isSetTimeSignatureKind e.kind = false := by
  intro fuel
  induction fuel with
  | zero =>
    intro cum data out h
    cases h
  | succ f ih =>
    intro cum data out h
    rw [track_events_parse] at h
    split at h
    · cases h
    · cases h
    · rename_i ev data1 hev
      split at h
      · injection h with h
        subst h
        intro e he
        cases he
      · rename_i hne
        dsimp only at h
        split at h
        · cases h
        · rename_i more hmore
          injection h with h
          subst h
          intro e he
          cases he with
          | head =>
            refine ⟨hne, ?_⟩
            show isSetTimeSignatureKind ev.kind = false
            exact event_parse_not_sts _ _ _ hev
          | tail _ hmem => exact ih _ _ _ hmore e hmem

/-- Events collected by the chunk loop of `Sequence.parse` are never
`EndTrack` and never `SetTimeSignature`. -/
theorem tracks_parse_kinds :
    ∀ (n trackIdx : Nat) (src : List Byte) (out : List PyEvent),
      tracks_parse n trackIdx src = .ok out →
      ∀ e ∈ out, e.kind ≠ .endTrack ∧ isSetTimeSignatureKind e.kind = false := by
  intro n
  induction n with
  | zero =>
    intro trackIdx src out h
    injection h with h
    subst h
    intro e he
    cases he
  | succ m ih =>
    intro trackIdx src out h
    rw [tracks_parse] at h
    split at h
    · cases h
    · rename_i ch rest hch
      split at h
      · split at h
        · cases h
        · rename_i evs hevs
          split at h
          · cases h
          · rename_i more hmore
            injection h with h
            subst h
            intro e he
            rcases List.mem_append.mp he with hm | hm
            · exact track_events_parse_kinds _ _ _ _ _ hevs e hm
            · exact ih _ _ _ hmore e hm
      · exact ih _ _ _ h

/-- Inversion of `sequence_parse`: a successful parse factors through the
track loop, the stable sort, and the normalization walk. -/
theorem sequence_parse_ok_inv (src : List Byte) (seq : PySequence)
    (h : sequence_parse src = .ok seq) :
    ∃ (hdr : PyChunk) (rest : List Byte) (evs : List PyEvent),
      chunk_parse src (some mthdId) = .ok (hdr, rest) ∧
      tracks_parse (bytesToNat ((hdr.data.drop 2).take 2)) 0 rest = .ok evs ∧
      List.insertionSort cumLE evs ≠ [] ∧
      stamp_walk (timeDivisionOfBytes ((hdr.data.drop 4).take 2)) 120
        defaultSignature (List.insertionSort cumLE evs) = .ok seq.events := by
  unfold sequence_parse at h
  split at h
  · cases h
  · rename_i hdr rest hchunk
    dsimp only at h
    split at h
    · cases h
    · rename_i evs hevs
      split at h
      · cases h
      · rename_i stamped hpost
        injection h with h
        subst h
        unfold sequence_post at hpost
        dsimp only at hpost
        split at hpost
        · cases hpost
        · rename_i a l hsorted
          exact ⟨hdr, rest, evs, hchunk, hevs, hsorted, hpost⟩


/-- Transfer of pairwise ordering from the mapped cumulative keys back to
the event list. -/
theorem pairwise_cumLE_of_map (l : List PyEvent)
    (h : List.Pairwise (fun a b : Nat => a ≤ b) (l.map PyEvent.cumulative)) :
    l.Pairwise cumLE := by
  induction l with
  | nil => exact List.Pairwise.nil
  | cons e t ih =>
    simp only [List.map_cons, List.pairwise_cons] at h ⊢
    refine ⟨?_, ih h.2⟩
    intro b hb
    exact h.1 _ (List.mem_map_of_mem _ hb)

/-- Claim C2 (amended): after `Sequence.parse` the event list is sorted
by cumulative tick.  The claim's meta-priority clause does not hold (see
the counterexample): `sequence.sort(key=cumulative)` is a stable sort on
the cumulative key alone, so events at equal cumulative keep their
pre-sort per-track order; there is no reordering of `SetTempo`,
`SetTimeSignature`, or `ProgramChange` ahead of other events. -/
theorem parse_sorted_by_cumulative (src : List Byte) (seq : PySequence)
    (h : sequence_parse src = .ok seq) :
    seq.events.Pairwise cumLE := by
  obtain ⟨hdr, rest, evs, _, _, _, hwalk⟩ := sequence_parse_ok_inv src seq h
  have hsorted : List.Sorted cumLE (List.insertionSort cumLE evs) :=
    List.sorted_insertionSort cumLE evs
  have hmap := (stamp_walk_map _ _ _ _ _ hwalk).1
  have h1 : List.Pairwise (fun a b : Nat => a ≤ b)
      (seq.events.map PyEvent.cumulative) := by
    rw [hmap]
    exact List.pairwise_map.mpr hsorted
  exact pairwise_cumLE_of_map _ h1

/-- Witness for the amended C2 on a concrete parse. -/
theorem parse_sorted_by_cumulative_witness :
    exampleParsed.events.Pairwise cumLE :=
  parse_sorted_by_cumulative exampleFile exampleParsed (by rfl)

/-- Claim C3 (amended): for every well-formed input the caller-visible
event list `Sequence.parse` returns contains no `EndTrack` (never
appended) and no `SetTimeSignature` (any file containing one fails to
parse with `NameError`); `SetTempo` and `ProgramChange` events are *not*
removed (see the counterexample). -/
theorem parse_no_endtrack_no_sts (src : List Byte) (seq : PySequence)
    (h : sequence_parse src = .ok seq) :
    ∀ e ∈ seq.events, e.kind ≠ .endTrack ∧
      isSetTimeSignatureKind e.kind = false := by
  obtain ⟨hdr, rest, evs, hchunk, hevs, hne, hwalk⟩ :=
    sequence_parse_ok_inv src seq h
  intro e he
  have hkinds := (stamp_walk_map _ _ _ _ _ hwalk).2
  have hmem : e.kind ∈ (List.insertionSort cumLE evs).map PyEvent.kind := by
    rw [← hkinds]
    exact List.mem_map_of_mem _ he
  rcases List.mem_map.mp hmem with ⟨e1, he1, hk⟩
  have he1m : e1 ∈ evs := (List.perm_insertionSort cumLE evs).mem_iff.mp he1
  rw [← hk]
  exact tracks_parse_kinds _ _ _ _ hevs e1 he1m

/-- Witness for the amended C3 on a concrete parse. -/
theorem parse_no_endtrack_no_sts_witness :
    exampleNoteOn.kind ≠ EventKind.endTrack ∧
    isSetTimeSignatureKind exampleNoteOn.kind = false :=
  parse_no_endtrack_no_sts exampleFile exampleParsed (by rfl) exampleNoteOn
    (List.mem_cons_self _ _)

/-- Claim C9: in a parsed sequence, a stamped event (one that is not
itself a `SetTempo`) preceded by no `SetTempo` carries the default tempo
of `Tempo()`, 120 BPM, and one that is not itself a `SetTimeSignature`
preceded by no `SetTimeSignature` carries the default 4/4 signature of
`TimeSignature()` — the normalization walk seeds its running tempo and
signature with those defaults. -/
theorem parse_default_stamps (src : List Byte) (seq : PySequence) (i : Nat)
    (h : sequence_parse src = .ok seq) (hi : i < seq.events.length) :
    ((∀ e ∈ seq.events.take i, isSetTempoKind e.kind = false) →
      isSetTempoKind (seq.events.getD i default).kind = false →
      (seq.events.getD i default).tempo = some 120) ∧
    ((∀ e ∈ seq.events.take i, isSetTimeSignatureKind e.kind = false) →
      isSetTimeSignatureKind (seq.events.getD i default).kind = false →
      (seq.events.getD i default).signature = some defaultSignature) := by
  obtain ⟨hdr, rest, evs, _, _, _, hwalk⟩ := sequence_parse_ok_inv src seq h
  exact stamp_walk_defaults _ 120 defaultSignature _ _ hwalk i hi

/-- Witness for C9: the `NoteOn` of `exampleFile` is preceded by no
`SetTempo` or `SetTimeSignature` and is stamped 120 BPM, 4/4. -/
theorem parse_default_stamps_witness :
    (exampleParsed.events.getD 0 default).tempo = some 120 ∧
    (exampleParsed.events.getD 0 default).signature = some defaultSignature := by
  have h := parse_default_stamps exampleFile exampleParsed 0 (by rfl)
    (by simp [exampleParsed])
  exact ⟨h.1 (by simp) (by rfl), h.2 (by simp) (by rfl)⟩


/-- Claim C4: parsing a meta event of type `0x58` (time signature) with a
well-formed length and sufficient payload always fails with the
`NameError` from `SetTimeSignature.__init__` (which tests
`isinstance(signatue, TimeSignature)` with `signatue` undefined) — it
never constructs the event and never raises `MIDIError` — so
`Sequence.parse` fails on every file containing a `SetTimeSignature`
event (see also the amended C3: no parsed sequence contains one). -/
theorem sts_parse_nameerror (src rest : List Byte) (len : Nat)
    (h : var_int_parse src = .ok (len, rest)) (hlen : len ≤ rest.length) :
    meta_event_parse (⟨0x58, by omega⟩ :: src) =
      .error (.nameError nameSignatueMsg) := by
  unfold meta_event_parse
  dsimp only
  rw [if_pos (by decide)]
  rw [h]
  dsimp only
  rw [if_neg (by omega)]
  rfl

/-- Witness for C4: `FF 58 04 04 02 18 08` (the delta and status are
consumed by `Event.parse` before `MetaEvent._parse` runs; here the stream
starts at the type byte). -/
theorem sts_parse_nameerror_witness :
    meta_event_parse [⟨0x58, by omega⟩, ⟨4, by omega⟩, ⟨4, by omega⟩,
      ⟨2, by omega⟩, ⟨24, by omega⟩, ⟨8, by omega⟩] =
      .error (.nameError nameSignatueMsg) :=
  sts_parse_nameerror [⟨4, by omega⟩, ⟨4, by omega⟩, ⟨2, by omega⟩,
    ⟨24, by omega⟩, ⟨8, by omega⟩]
    [⟨4, by omega⟩, ⟨2, by omega⟩, ⟨24, by omega⟩, ⟨8, by omega⟩] 4
    (by rfl) (by simp)

/-- Claim C5: parsing a pitch-bend event decodes the 14-bit little-endian
wire value `w` into `value = w / 0x2000 - 1`, which equals the claim's
`(w − 8192) / 8192` and lies in `[−1, 1]`.  Emitting, however, never
produces the claimed `round((value + 1) × 8192)` bytes:
`PitchBend._parameters` reads the undefined attribute `vale` (the
constructor stores `value`), so every emit raises `AttributeError`. -/
theorem pitchbend_parse_and_emit :
    (∀ (status : Nat) (b0 b1 : Byte) (rest : List Byte), status / 16 = 14 →
      channel_event_parse status (b0 :: b1 :: rest) =
        .ok ({ mkEvent (.pitchBend
            (((b0.val % 128 + b1.val % 128 * 128 : ℕ) : ℚ) / 0x2000 - 1)) with
            channel := some (status % 16) }, rest) ∧
      ((b0.val % 128 + b1.val % 128 * 128 : ℕ) : ℚ) / 0x2000 - 1 =
        (((b0.val % 128 + b1.val % 128 * 128 : ℕ) : ℚ) - 8192) / 8192 ∧
      -1 ≤ ((b0.val % 128 + b1.val % 128 * 128 : ℕ) : ℚ) / 0x2000 - 1 ∧
      ((b0.val % 128 + b1.val % 128 * 128 : ℕ) : ℚ) / 0x2000 - 1 ≤ 1) ∧
    ∀ v : ℚ, pitch_bend_parameters v =
      .error (.attributeError "PitchBend object has no attribute vale") := by
  constructor
  · intro status b0 b1 rest hst
    have hw : (b0.val % 128 + b1.val % 128 * 128 : ℕ) ≤ 16383 := by
      have := b0.isLt
      have := b1.isLt
      omega
    have hwq : ((b0.val % 128 + b1.val % 128 * 128 : ℕ) : ℚ) ≤ 16383 := by
      exact_mod_cast hw
    have hwq0 : (0 : ℚ) ≤ ((b0.val % 128 + b1.val % 128 * 128 : ℕ) : ℚ) := by
      positivity
    refine ⟨?_, by ring, by linarith [div_nonneg hwq0 (by norm_num : (0:ℚ) ≤ 0x2000)], ?_⟩
    · unfold channel_event_parse
      rw [hst]
    · have h2 : ((b0.val % 128 + b1.val % 128 * 128 : ℕ) : ℚ) / 0x2000 ≤ 2 := by
        rw [div_le_iff₀ (by norm_num : (0:ℚ) < 0x2000)]
        linarith
      linarith
  · intro v
    rfl

/-- Witness for C5 at status `0xE3` and wire bytes `00 40`
(wire = 8192, value 0). -/
theorem pitchbend_parse_and_emit_witness :
    channel_event_parse 227 [⟨0, by omega⟩, ⟨64, by omega⟩] =
      .ok ({ mkEvent (.pitchBend
          ((((⟨0, by omega⟩ : Byte).val % 128 +
             (⟨64, by omega⟩ : Byte).val % 128 * 128 : ℕ) : ℚ) / 0x2000 - 1)) with
          channel := some (227 % 16) }, []) :=
  (pitchbend_parse_and_emit.1 227 ⟨0, by omega⟩ ⟨64, by omega⟩ []
    (by norm_num)).1

/-- Claim C6, counterexample: with a bound node map (the default node,
4/4) the triple `(1, 1, 0)` is rejected — the setter tests
`bar < 1 or beat < 1 or tick < 1`, so `tick = 0` raises the out-of-range
`MIDIError`, while the claim says only `tick < 0` is rejected and
`tick = 0` is accepted. -/
theorem triple_tick_zero_rejected_cex :
    triple_set (some [defaultTSNode]) 1 1 0 =
      .error (.midiError (tripleRangeMsg 1 1 0)) := by
  rfl

/-- Claim C6 (amended): with a node `n` found for the triple and a
nonzero denominator, setting `(bar, beat, tick)` with all components
≥ 1 succeeds exactly when `beat ≤ n.sig.num` and
`tick ≤ 1920 / n.sig.denom` — i.e. the code rejects `tick < 1` (so
`tick = 0` is rejected, not accepted) and accepts
`tick = 1920 / n.sig.denom` (only `tick >` it is rejected); a triple with
any component below 1 is rejected with the out-of-range error before the
specification is consulted, and a valid triple on a `Time` with no bound
node map raises the no-specification `MIDIError`. -/
theorem triple_set_characterization :
    (∀ (s : List TSNode) (bar beat tick : Int) (n : TSNode),
       spec_triple_lookup s bar beat tick = some n →
       1 ≤ bar → 1 ≤ beat → 1 ≤ tick → n.signature.denominator ≠ 0 →
       ((∃ q : ℚ, triple_set (some s) bar beat tick = .ok q) ↔
         (beat ≤ (n.signature.numerator : Int) ∧
          (tick : ℚ) ≤ 1920 / (n.signature.denominator : ℚ)))) ∧
    (∀ bar beat tick : Int, 1 ≤ bar → 1 ≤ beat → 1 ≤ tick →
       triple_set none bar beat tick =
         .error (.midiError "Cannot set triple without a time specification.")) ∧
    (∀ (sp : Option (List TSNode)) (bar beat tick : Int),
       bar < 1 ∨ beat < 1 ∨ tick < 1 →
       triple_set sp bar beat tick =
         .error (.midiError (tripleRangeMsg bar beat tick))) := by
  refine ⟨?_, ?_, ?_⟩
  · intro s bar beat tick n hlook h1 h2 h3 hden
    unfold triple_set
    rw [if_neg (by omega)]
    dsimp only
    rw [hlook]
    dsimp only
    by_cases hb : (n.signature.numerator : Int) < beat
    · rw [if_pos hb]
      exact ⟨fun ⟨q, hq⟩ => absurd hq (by simp),
             fun ⟨hle, _⟩ => absurd hb (by omega)⟩
    · rw [if_neg hb]
      rw [if_neg hden]
      by_cases ht : (1920 : ℚ) / (n.signature.denominator : ℚ) < (tick : ℚ)
      · rw [if_pos ht]
        exact ⟨fun ⟨q, hq⟩ => absurd hq (by simp),
               fun ⟨_, hle⟩ => absurd ht (by linarith)⟩
      · rw [if_neg ht]
        exact ⟨fun _ => ⟨by omega, le_of_not_lt ht⟩, fun _ => ⟨_, rfl⟩⟩
  · intro bar beat tick h1 h2 h3
    unfold triple_set
    rw [if_neg (by omega)]
  · intro sp bar beat tick h
    unfold triple_set
    rw [if_pos h]

/-- Witness for the amended C6: with the default node, `(2, 1, 1)` is
settable, a valid triple without a specification raises the
no-specification error, and `bar = 0` is out of range. -/
theorem triple_set_characterization_witness :
    ((∃ q : ℚ, triple_set (some [defaultTSNode]) 2 1 1 = .ok q) ↔
      ((1 : Int) ≤ (defaultTSNode.signature.numerator : Int) ∧
       ((1 : Int) : ℚ) ≤ 1920 / (defaultTSNode.signature.denominator : ℚ))) ∧
    triple_set none 1 1 1 =
      .error (.midiError "Cannot set triple without a time specification.") ∧
    triple_set (some [defaultTSNode]) 0 1 1 =
      .error (.midiError (tripleRangeMsg 0 1 1)) :=
  ⟨triple_set_characterization.1 [defaultTSNode] 2 1 1 defaultTSNode (by rfl)
     (by omega) (by omega) (by omega) (by decide),
   triple_set_characterization.2.1 1 1 1 (by omega) (by omega) (by omega),
   triple_set_characterization.2.2 (some [defaultTSNode]) 0 1 1
     (Or.inl (by omega))⟩

/-- Claim C10: on a nonempty sequence with a format, setting format 1 on
a single-track format-0 sequence succeeds and moves every `MetaEvent` to
track 0 and every other event to track 1, while any other change of
format raises the conversion `MIDIError` (only 0 → 1 is supported;
re-setting the current format is a no-op, not a change). -/
theorem format_conversion (s : PySequence) (hne : s.events ≠ []) :
    (s.format = some 0 → seq_tracks_val s.events = 1 →
      format_set s 1 = .ok { s with
        format := some 1
        events := s.events.map (fun e =>
          { e with track := if isMetaKind e.kind then 0 else 1 }) }) ∧
    (∀ f v : Nat, s.format = some f → ¬(f = 0 ∧ v = 1) → f ≠ v →
      format_set s v = .error (.midiError (formatConvMsg f v))) := by
  have hemp : s.events.isEmpty = false := by
    cases hevs : s.events with
    | nil => exact absurd hevs hne
    | cons a t => rfl
  constructor
  · intro hf htr
    unfold format_set
    rw [hf]
    dsimp only
    rw [hemp]
    rw [if_neg (by simp)]
    rw [if_pos ⟨rfl, rfl⟩]
    rw [if_neg (by simp [htr])]
  · intro f v hf hnot hnev
    unfold format_set
    rw [hf]
    dsimp only
    rw [hemp]
    rw [if_neg (by simp)]
    rw [if_neg hnot]
    rw [if_pos hnev]

/-- Witness for C10 on the parsed example sequence (format 0, one track
with a `NoteOn` and a `SetTempo`): conversion to format 1 reassigns the
tracks, conversion to format 2 raises the conversion error. -/
theorem format_conversion_witness :
    format_set exampleParsed 1 = .ok { exampleParsed with
      format := some 1
      events := exampleParsed.events.map (fun e =>
        { e with track := if isMetaKind e.kind then 0 else 1 }) } ∧
    format_set exampleParsed 2 = .error (.midiError (formatConvMsg 0 2)) :=
  ⟨(format_conversion exampleParsed (by simp [exampleParsed])).1 rfl (by rfl),
   (format_conversion exampleParsed (by simp [exampleParsed])).2 0 2 rfl
     (by simp) (by omega)⟩

end MidiPy
